import Mathlib

/-!
Verification of the cost-aware response resolution pipeline of the
AI Accessibility Advocate Assistant (`app.py`).

The development shallowly embeds the core logic of `app.py`:

* the offline knowledge base `ACCESSIBILITY_KNOWLEDGE` and the lookup
  `find_offline_answer` (Python dicts are embedded as association lists in
  insertion order, matching the iteration order of Python 3.7+ dicts);
* the bounded response cache (`get_cache_key`, `get_cached_response`,
  `cache_response`);
* the rate limiter `check_rate_limit` (time is modelled explicitly as a
  rational number of seconds; `time.sleep d` followed by `time.time()` is
  modelled as advancing the clock by exactly `d`);
* the chat-turn pipeline of `accessibility_chat` (the body of the
  `if prompt := st.chat_input(...)` block), with the external generation
  client modelled as an explicit outcome function and the MD5 fingerprint
  (`hashlib.md5(...).hexdigest()`, an external library call) modelled as an
  arbitrary function parameter `md5hex`.

Strings from the source are copied byte-for-byte (non-ASCII bytes of the
source file appear as the corresponding escaped code points).
-/

/-- Python's `pat in hay` substring test on strings. -/
def strContains (hay pat : String) : Bool :=
  decide (pat.data <:+: hay.data)

/-- Python's `str.lower()` (character-wise lowering, as in Lean's
`Char.toLower`; all strings involved are effectively ASCII). -/
def pyLower (s : String) : String :=
  ⟨s.data.map Char.toLower⟩

/-- `RATE_LIMIT_DELAY = 2  # seconds between API calls` -/
def RATE_LIMIT_DELAY : ℚ := 2

/-- `MAX_CACHE_SIZE = 100` -/
def MAX_CACHE_SIZE : Nat := 100

/-- `FALLBACK_TO_OFFLINE = True` (declared in `app.py`; not consulted by the
chat pipeline's logic). -/
def FALLBACK_TO_OFFLINE : Bool := true

/-- One value of the `ACCESSIBILITY_KNOWLEDGE` dict:
`{"question": ..., "answer": ...}`. -/
structure KBEntry where
  question : String
  answer : String
deriving DecidableEq, Repr

def question_color_contrast : String :=
  "What color contrast ratio do I need for WCAG AA compliance?"

def answer_color_contrast : String :=
  "\n\x23\x23 WCAG AA Color Contrast Requirements\n\n**For Normal Text:**\n- **Minimum ratio: 4.5:1** against background\n- Applies to text smaller than 18pt (or 14pt bold)\n\n**For Large Text:**\n- **Minimum ratio: 3:1** against background  \n- Applies to text 18pt+ or 14pt+ bold\n\n**For UI Components & Graphics:**\n- **Minimum ratio: 3:1** for:\n  - Form input borders\n  - Icons that convey information\n  - Charts and graphs\n  - Focus indicators\n\n\x23\x23\x23 Testing Tools:\n- **WebAIM Contrast Checker**: https://webaim.org/resources/contrastchecker/\n- **Colour Contrast Analyser**: Free desktop tool\n- **Chrome DevTools**: Built-in accessibility audit\n\n\x23\x23\x23 Common Color Combinations (AA Compliant):\n- Black text (\x23000000) on white (\x23FFFFFF) = 21:1 ‚úÖ\n- Dark gray (\x23595959) on white = 4.54:1 ‚úÖ  \n- Blue (\x230066CC) on white = 4.56:1 ‚úÖ\n- White text on dark blue (\x23003366) = 12.63:1 ‚úÖ\n        "

def question_alt_text : String :=
  "How do I write effective alt text for images?"

def answer_alt_text : String :=
  "\n\x23\x23 Writing Effective Alt Text\n\n**Key Principles:**\n1. **Be descriptive but concise** (typically under 125 characters)\n2. **Include the image\x27s purpose** in context\n3. **Don\x27t start with \"Image of\" or \"Picture of\"**\n4. **Describe what\x27s important** for understanding\n\n\x23\x23\x23 Examples:\n\n**Decorative Images:**\n\x60\x60\x60html\n<img src=\"border-decoration.png\" alt=\"\">\n\x60\x60\x60\n*Use empty alt=\"\" for purely decorative images*\n\n**Informative Images:**\n\x60\x60\x60html\n<!-- Poor -->\n<img src=\"chart.png\" alt=\"Chart\">\n\n<!-- Good -->\n<img src=\"chart.png\" alt=\"Sales increased 25% from Q1 to Q2 2024\">\n\x60\x60\x60\n\n**Functional Images (buttons, links):**\n\x60\x60\x60html\n<!-- Poor -->\n<img src=\"search-icon.png\" alt=\"Search icon\">\n\n<!-- Good -->\n<img src=\"search-icon.png\" alt=\"Search\">\n\x60\x60\x60\n\n**Complex Images:**\n- Provide brief alt text + detailed description nearby\n- Consider using \x60aria-describedby\x60 for longer descriptions\n\n\x23\x23\x23 Alt Text Checklist:\n- ‚úÖ Does it convey the image\x27s meaning?\n- ‚úÖ Is it contextually relevant?\n- ‚úÖ Would it make sense if read aloud?\n- ‚úÖ Is it concise but complete?\n        "

def question_keyboard_navigation : String :=
  "How can I make my website keyboard navigable?"

def answer_keyboard_navigation : String :=
  "\n\x23\x23 Keyboard Navigation Best Practices\n\n**Essential Requirements:**\n1. **All interactive elements must be keyboard accessible**\n2. **Logical tab order** through content\n3. **Visible focus indicators** on all focusable elements\n4. **No keyboard traps** (user can always navigate away)\n\n\x23\x23\x23 Key Standards:\n\n**Tab Navigation:**\n- \x60Tab\x60: Move to next focusable element\n- \x60Shift + Tab\x60: Move to previous element\n- \x60Enter/Space\x60: Activate buttons and links\n- \x60Arrow keys\x60: Navigate within components (menus, tabs)\n- \x60Escape\x60: Close dialogs and menus\n\n**Focus Management:**\n\x60\x60\x60css\n/* Visible focus indicator */\nbutton:focus, a:focus \x7b\n    outline: 2px solid \x230066CC;\n    outline-offset: 2px;\n\x7d\n\n/* Never remove focus entirely */\n/* DON\x27T DO: *:focus \x7b outline: none; \x7d */\n\x60\x60\x60\n\n**HTML Structure:**\n\x60\x60\x60html\n<!-- Proper heading hierarchy -->\n<h1>Main Page Title</h1>\n  <h2>Section Title</h2>\n    <h3>Subsection</h3>\n\n<!-- Skip links for screen readers -->\n<a href=\"\x23main-content\" class=\"sr-only\">Skip to main content</a>\n\n<!-- Proper form labeling -->\n<label for=\"email\">Email Address</label>\n<input type=\"email\" id=\"email\" name=\"email\">\n\x60\x60\x60\n\n**Testing:**\n- Navigate your site using only the Tab key\n- Ensure all functionality is available via keyboard\n- Check that focus indicators are clearly visible\n        "

def question_forms : String :=
  "What are the key principles of accessible form design?"

def answer_forms : String :=
  "\n\x23\x23 Accessible Form Design\n\n**Essential Elements:**\n\n\x23\x23\x23 1. Labels and Instructions\n\x60\x60\x60html\n<!-- Always use explicit labels -->\n<label for=\"firstname\">First Name *</label>\n<input type=\"text\" id=\"firstname\" name=\"firstname\" required>\n\n<!-- Group related fields -->\n<fieldset>\n    <legend>Contact Information</legend>\n    <!-- form fields here -->\n</fieldset>\n\x60\x60\x60\n\n\x23\x23\x23 2. Error Handling\n\x60\x60\x60html\n<!-- Clear error messages -->\n<label for=\"email\">Email Address *</label>\n<input type=\"email\" id=\"email\" aria-describedby=\"email-error\" required>\n<div id=\"email-error\" role=\"alert\">\n    Please enter a valid email address\n</div>\n\x60\x60\x60\n\n\x23\x23\x23 3. Required Field Indicators\n- Mark required fields clearly (*, \"required\", etc.)\n- Use \x60required\x60 attribute and \x60aria-required=\"true\"\x60\n- Don\x27t rely on color alone to indicate required fields\n\n\x23\x23\x23 4. Input Instructions\n\x60\x60\x60html\n<label for=\"password\">Password</label>\n<input type=\"password\" id=\"password\" aria-describedby=\"pwd-help\">\n<div id=\"pwd-help\">\n    Must be 8+ characters with uppercase, lowercase, and numbers\n</div>\n\x60\x60\x60\n\n\x23\x23\x23 5. Accessible Form Controls\n\n**Checkboxes & Radio Buttons:**\n\x60\x60\x60html\n<fieldset>\n    <legend>Preferred Contact Method</legend>\n    <input type=\"radio\" id=\"contact-email\" name=\"contact\" value=\"email\">\n    <label for=\"contact-email\">Email</label>\n    \n    <input type=\"radio\" id=\"contact-phone\" name=\"contact\" value=\"phone\">\n    <label for=\"contact-phone\">Phone</label>\n</fieldset>\n\x60\x60\x60\n\n**WCAG Guidelines:**\n- 3.3.1: Error Identification (A)\n- 3.3.2: Labels or Instructions (A)  \n- 3.3.3: Error Suggestion (AA)\n- 3.3.4: Error Prevention (AA)\n        "

/-- The `ACCESSIBILITY_KNOWLEDGE` dict of `app.py`, in insertion order. -/
def ACCESSIBILITY_KNOWLEDGE : List (String × KBEntry) :=
  [("color contrast", ⟨question_color_contrast, answer_color_contrast⟩),
   ("alt text", ⟨question_alt_text, answer_alt_text⟩),
   ("keyboard navigation", ⟨question_keyboard_navigation, answer_keyboard_navigation⟩),
   ("forms", ⟨question_forms, answer_forms⟩)]

/-- The `keywords_map` dict inside `find_offline_answer`, in insertion order. -/
def keywords_map : List (String × String) :=
  [("contrast", "color contrast"),
   ("ratio", "color contrast"),
   ("alt", "alt text"),
   ("alternative text", "alt text"),
   ("keyboard", "keyboard navigation"),
   ("tab", "keyboard navigation"),
   ("focus", "keyboard navigation"),
   ("form", "forms"),
   ("input", "forms"),
   ("label", "forms")]

/-- Python `topic in ACCESSIBILITY_KNOWLEDGE` / `ACCESSIBILITY_KNOWLEDGE[topic]`:
key lookup in the knowledge-base dict. -/
def kbLookupTopic (topic : String) : Option KBEntry :=
  (ACCESSIBILITY_KNOWLEDGE.find? (fun p => p.1 == topic)).map (fun p => p.2)

/-- `find_offline_answer(prompt)` of `app.py`: first pass scans the topic keys
in dict order for a substring hit in the lowercased prompt; the second pass
scans `keywords_map` in dict order, accepting a keyword when it occurs in the
lowercased prompt and its topic is a key of `ACCESSIBILITY_KNOWLEDGE`. -/
def find_offline_answer (prompt : String) : Option String :=
  let prompt_lower := pyLower prompt
  match ACCESSIBILITY_KNOWLEDGE.find? (fun p => strContains prompt_lower p.1) with
  | some p => some p.2.answer
  | none =>
    match keywords_map.find? (fun kv =>
        strContains prompt_lower kv.1 && (kbLookupTopic kv.2).isSome) with
    | some kv => (kbLookupTopic kv.2).map (fun e => e.answer)
    | none => none

/-- The topic keys of the knowledge base, in their fixed order. -/
def kb_topics : List String := ACCESSIBILITY_KNOWLEDGE.map (fun p => p.1)

/-- The keywords of the keyword index, in their fixed order. -/
def kb_keywords : List String := keywords_map.map (fun kv => kv.1)

/-! ### Response cache

`st.session_state.response_cache` is a Python dict keyed by MD5 hex digests.
It is embedded as an association list in insertion order.  `dictGet` and
`dictSet` are the dict read/assignment primitives: assignment overwrites an
existing key in place (keeping its position) and otherwise appends at the
end, exactly the Python 3.7+ dict semantics. -/

def dictGet : List (String × String) → String → Option String
  | [], _ => none
  | p :: rest, k => if p.1 == k then some p.2 else dictGet rest k

def dictSet : List (String × String) → String → String → List (String × String)
  | [], k, v => [(k, v)]
  | p :: rest, k, v => if p.1 == k then (k, v) :: rest else p :: dictSet rest k v

/-- `get_cache_key(prompt)` — `hashlib.md5(prompt.encode()).hexdigest()`.
The MD5 digest is an external library call; it is modelled by an arbitrary
function parameter `md5hex` (the code relies only on it being a deterministic
function of the prompt text). -/
def get_cache_key (md5hex : String → String) (prompt : String) : String :=
  md5hex prompt

/-- `get_cached_response(prompt)` — dict lookup under the prompt's key. -/
def get_cached_response (md5hex : String → String)
    (cache : List (String × String)) (prompt : String) : Option String :=
  dictGet cache (get_cache_key md5hex prompt)

/-- `cache_response(prompt, response)` — when the cache already holds
`MAX_CACHE_SIZE` or more entries, `next(iter(cache))` (the earliest-inserted
key) is deleted, i.e. the first entry is dropped; then the response is stored
under the prompt's key. -/
def cache_response (md5hex : String → String) (prompt response : String)
    (cache : List (String × String)) : List (String × String) :=
  let cache' := if MAX_CACHE_SIZE ≤ cache.length then cache.drop 1 else cache
  dictSet cache' (get_cache_key md5hex prompt) response

/-! ### Rate limiter

`check_rate_limit()` reads `time.time()`, sleeps for the remainder of
`RATE_LIMIT_DELAY` when the previous call was too recent, and records
`time.time()` as the new baseline.  Time is modelled as a rational number of
seconds; `time.sleep d` followed by `time.time()` is modelled as an exact
advance of the clock by `d`. -/

/-- `check_rate_limit()` as a function of the clock `now` at entry and the
recorded `st.session_state.last_api_call` (`0` when no call was recorded):
returns the slept duration and the completion instant, which is also the new
`last_api_call` value. -/
def check_rate_limit (now last_api_call : ℚ) : ℚ × ℚ :=
  let time_since_last := now - last_api_call
  let slept := if time_since_last < RATE_LIMIT_DELAY
    then RATE_LIMIT_DELAY - time_since_last else 0
  (slept, now + slept)

/-! ### The chat pipeline -/

/-- Outcome of `model.generate_content(...)`: either a response whose `.text`
is returned, or a raised exception with message `str(e)`. -/
inductive GenOutcome where
  | success (text : String)
  | failure (errMsg : String)
deriving DecidableEq, Repr

/-- Provenance taxonomy of the produced answer (spec §3 / glossary):
`cached` for a cache hit, `offline` for a knowledge-base hit, `live` for a
successful generation call, `fallback` for the generic resource pointers
shown on quota exhaustion. -/
inductive Provenance where
  | cached | offline | live | fallback
deriving DecidableEq, Repr

/-- One entry of `st.session_state.chat_history`.  The optional dict fields
`is_cached` / `is_offline` default to absent (`false`). -/
structure ChatMsg where
  role : String
  content : String
  is_cached : Bool := false
  is_offline : Bool := false
deriving DecidableEq, Repr

/-- The per-session mutable state touched by `accessibility_chat`. -/
structure ChatState where
  chat_history : List ChatMsg
  response_cache : List (String × String)
  last_api_call : ℚ
deriving DecidableEq, Repr

/-- The session state of a fresh session (`chat_history` and
`response_cache` initialised to empty, `last_api_call` to `0`). -/
def initialState : ChatState :=
  { chat_history := [], response_cache := [], last_api_call := 0 }

/-- What one chat turn produced: the updated session state, whether
`model.generate_content` was invoked, the provenance and text of the answer
shown (if any), and the `st.error` / `st.info` banners shown (if any). -/
structure StepResult where
  state : ChatState
  genCalled : Bool
  provenance : Option Provenance
  answer : Option String
  errorShown : Option String
  infoShown : Option String
deriving DecidableEq, Repr

def msg_cached_info : String :=
  "üîÑ Retrieved from cache (no API cost)"

def msg_quota_err : String :=
  "‚ö†Ô∏è API quota exceeded. Showing available offline content:"

def msg_noapi_info : String :=
  "üí° API not available. Try the example questions in the sidebar or check the Resources tab for common accessibility information."

def general_info : String :=
  "\n                            **Common Accessibility Resources:**\n                            \n                            - **WCAG 2.1 Guidelines**: https://www.w3.org/WAI/WCAG21/quickref/\n                            - **WebAIM**: https://webaim.org/ (excellent tutorials and tools)\n                            - **a11y Project**: https://www.a11yproject.com/ (practical checklist)\n                            - **MDN Accessibility**: https://developer.mozilla.org/en-US/docs/Web/Accessibility\n                            \n                            For specific questions, try the example prompts in the sidebar or check the Resources tab.\n                            "

def accessibility_prompt_prefix : String :=
  "\n                        You are an accessibility expert. Provide a concise, actionable answer for:\n                        \n                        "

def accessibility_prompt_suffix : String :=
  "\n                        \n                        Focus on:\n                        1. Direct answer\n                        2. Relevant WCAG guidelines  \n                        3. Practical steps\n                        \n                        Keep response under 300 words.\n                        "

/-- The templated `accessibility_prompt` f-string wrapping the user's raw
question. -/
def accessibility_prompt (prompt : String) : String :=
  accessibility_prompt_prefix ++ prompt ++ accessibility_prompt_suffix

/-- Python truthiness of an optional string: `None` and the empty string
are falsy.  This is the guard used at app.py:456 (`if cached_response:`)
and app.py:468 (`if offline_answer:`). -/
def pyTruthyOptStr : Option String → Bool
  | none => false
  | some s => !(s == "")

/-- One chat turn: the body of the `if prompt := st.chat_input(...)` block of
`accessibility_chat` (app.py lines 445–538).

* `st.chat_input` yields a falsy value (no submission, or the empty string)
  ⇒ the whole block is skipped: the turn is a no-op.
* Otherwise the user message is appended, then: cache check → offline
  knowledge-base check → live call (when `api_working`), with the quota /
  other-error handling of the `except` clause.  The cache and offline
  checks guard on Python truthiness (`if cached_response:`,
  `if offline_answer:`): a `None` result *and* an empty string both fall
  through.  In the truthy branches the guarded value is a non-empty string,
  extracted with `Option.getD ""`.
* `gen` models `model.generate_content` on the templated prompt, `now` is
  the wall clock at the moment `check_rate_limit()` reads `time.time()`. -/
def accessibility_chat (md5hex : String → String) (api_working : Bool)
    (gen : String → GenOutcome) (now : ℚ) (prompt : String) (s : ChatState) :
    StepResult :=
  if prompt = "" then
    { state := s, genCalled := false, provenance := none, answer := none,
      errorShown := none, infoShown := none }
  else
    let hist₁ := s.chat_history ++ [{ role := "user", content := prompt }]
    if pyTruthyOptStr (get_cached_response md5hex s.response_cache prompt) then
      { state := { s with chat_history :=
          hist₁ ++ [{ role := "assistant",
                      content :=
                        (get_cached_response md5hex s.response_cache
                          prompt).getD "",
                      is_cached := true }] },
        genCalled := false, provenance := some .cached,
        answer := some ((get_cached_response md5hex s.response_cache
          prompt).getD ""),
        errorShown := none, infoShown := some msg_cached_info }
    else
      if pyTruthyOptStr (find_offline_answer prompt) then
        { state := { s with chat_history :=
            hist₁ ++ [{ role := "assistant",
                        content := (find_offline_answer prompt).getD "",
                        is_offline := true }] },
          genCalled := false, provenance := some .offline,
          answer := some ((find_offline_answer prompt).getD ""),
          errorShown := none, infoShown := none }
      else
        if api_working then
          let last' := (check_rate_limit now s.last_api_call).2
          match gen (accessibility_prompt prompt) with
          | .success response_text =>
            let hist₂ :=
              hist₁ ++ [{ role := "assistant", content := response_text }]
            let cache' :=
              cache_response md5hex prompt response_text s.response_cache
            { state := { chat_history := hist₂, response_cache := cache',
                         last_api_call := last' },
              genCalled := true, provenance := some .live,
              answer := some response_text, errorShown := none,
              infoShown := none }
          | .failure error_msg =>
            if strContains error_msg "429" ||
                strContains (pyLower error_msg) "quota" then
              let hist₂ :=
                hist₁ ++ [{ role := "assistant", content := general_info,
                            is_offline := true }]
              { state := { chat_history := hist₂,
                           response_cache := s.response_cache,
                           last_api_call := last' },
                genCalled := true, provenance := some .fallback,
                answer := some general_info,
                errorShown := some msg_quota_err, infoShown := none }
            else
              { state := { chat_history := hist₁,
                           response_cache := s.response_cache,
                           last_api_call := last' },
                genCalled := true, provenance := none, answer := none,
                errorShown := some ("Error: " ++ error_msg),
                infoShown := none }
        else
          { state := { s with chat_history := hist₁ },
            genCalled := false, provenance := none, answer := none,
            errorShown := none, infoShown := some msg_noapi_info }

/-- A concrete full cache (exactly `MAX_CACHE_SIZE` distinct fingerprints)
used to instantiate the cache claims. -/
def witnessCache : List (String × String) :=
  (List.range MAX_CACHE_SIZE).map (fun i => ("k" ++ toString i, "v"))

/-- The reference lookup algorithm, written from the spec's words (§4.1):
normalize the query to lowercase; return the answer of the first topic (in
the fixed topic order) whose topic string occurs in the normalized query;
otherwise the answer for the first keyword (in the fixed keyword order)
found as a substring of the normalized query; otherwise absent.  Kept
separate from `find_offline_answer` (which is translated from the code) so
the two can be compared. -/
def kb_lookup_spec (query : String) : Option String :=
  let nq := pyLower query
  match ACCESSIBILITY_KNOWLEDGE.find? (fun p => strContains nq p.1) with
  | some p => some p.2.answer
  | none =>
    match keywords_map.find? (fun kv => strContains nq kv.1) with
    | some kv => (kbLookupTopic kv.2).map (fun e => e.answer)
    | none => none

/-! ### Helper lemmas about the dict primitives -/

theorem dictGet_dictSet_self (k v : String) :
    ∀ c : List (String × String), dictGet (dictSet c k v) k = some v := by
  intro c
  induction c with
  | nil => simp [dictSet, dictGet]
  | cons p rest ih =>
    by_cases h : p.1 == k
    · simp [dictSet, dictGet, h]
    · simp only [dictSet, dictGet, h, Bool.false_eq_true, if_false]
      exact ih

theorem dictSet_length_le (k v : String) :
    ∀ c : List (String × String), (dictSet c k v).length ≤ c.length + 1 := by
  intro c
  induction c with
  | nil => simp [dictSet]
  | cons p rest ih =>
    by_cases h : p.1 == k
    · simp [dictSet, h]
    · simp only [dictSet, h, Bool.false_eq_true, if_false, List.length_cons]
      omega

theorem dictSet_of_get_none (k v : String) :
    ∀ c : List (String × String), dictGet c k = none →
      dictSet c k v = c ++ [(k, v)] := by
  intro c
  induction c with
  | nil => intro _; simp [dictSet]
  | cons p rest ih =>
    intro h
    by_cases hp : p.1 == k
    · simp [dictGet, hp] at h
    · simp only [dictGet, hp, Bool.false_eq_true, if_false] at h
      simp [dictSet, hp, ih h]

theorem dictSet_length_of_get_isSome (k v : String) :
    ∀ c : List (String × String), (dictGet c k).isSome →
      (dictSet c k v).length = c.length := by
  intro c
  induction c with
  | nil => intro h; simp [dictGet] at h
  | cons p rest ih =>
    intro h
    by_cases hp : p.1 == k
    · simp [dictSet, hp]
    · simp only [dictGet, hp, Bool.false_eq_true, if_false] at h
      simp [dictSet, hp, ih h]

theorem dictGet_drop_none (k : String) (c : List (String × String))
    (h : dictGet c k = none) : dictGet (c.drop 1) k = none := by
  cases c with
  | nil => exact h
  | cons p rest =>
    by_cases hp : p.1 == k
    · simp [dictGet, hp] at h
    · simp only [dictGet, hp, Bool.false_eq_true, if_false] at h
      simpa using h

/-- `dictGet` is `some` iff some entry of the association list carries the
key (in terms of `List.any`). -/
theorem dictGet_isSome_of_any (k : String) :
    ∀ c : List (String × String), c.any (fun p => p.1 == k) = true →
      (dictGet c k).isSome := by
  intro c
  induction c with
  | nil => intro h; simp at h
  | cons p rest ih =>
    intro h
    by_cases hp : p.1 == k
    · simp [dictGet, hp]
    · simp only [List.any_cons, hp, Bool.false_or] at h
      simp only [dictGet, hp, Bool.false_eq_true, if_false]
      exact ih h

set_option maxRecDepth 100000 in
/-- Every keyword of `keywords_map` maps to an existing key of
`ACCESSIBILITY_KNOWLEDGE` (the `topic in ACCESSIBILITY_KNOWLEDGE` guard of
the keyword pass is always satisfied). -/
theorem keywords_map_topics_exist :
    ∀ kv ∈ keywords_map, (kbLookupTopic kv.2).isSome = true := by
  decide

/-- Plain unfolding of `find_offline_answer`. -/
theorem find_offline_answer_eq (prompt : String) :
    find_offline_answer prompt =
      match ACCESSIBILITY_KNOWLEDGE.find?
          (fun p => strContains (pyLower prompt) p.1) with
      | some p => some p.2.answer
      | none =>
        match keywords_map.find? (fun kv =>
            strContains (pyLower prompt) kv.1 && (kbLookupTopic kv.2).isSome) with
        | some kv => (kbLookupTopic kv.2).map (fun e => e.answer)
        | none => none := rfl

set_option maxRecDepth 100000 in
/-- Every answer stored in the knowledge base is a non-empty string. -/
theorem kb_answers_ne_empty :
    ∀ p ∈ ACCESSIBILITY_KNOWLEDGE, p.2.answer ≠ "" := by
  decide

/-- A knowledge-base hit is always a non-empty string, so the Python
truthiness guard `if offline_answer:` cannot fail on a hit. -/
theorem find_offline_answer_ne_empty (prompt a : String)
    (h : find_offline_answer prompt = some a) : a ≠ "" := by
  rw [find_offline_answer_eq] at h
  cases hfind : ACCESSIBILITY_KNOWLEDGE.find?
      (fun p => strContains (pyLower prompt) p.1) with
  | some p =>
    rw [hfind] at h
    cases h
    exact kb_answers_ne_empty p (List.mem_of_find?_eq_some hfind)
  | none =>
    rw [hfind] at h
    cases hkw : keywords_map.find? (fun kv =>
        strContains (pyLower prompt) kv.1 && (kbLookupTopic kv.2).isSome) with
    | none =>
      rw [hkw] at h
      exact absurd h (by simp)
    | some kv =>
      rw [hkw] at h
      simp only [kbLookupTopic] at h
      cases hfind2 : ACCESSIBILITY_KNOWLEDGE.find? (fun p => p.1 == kv.2) with
      | none =>
        rw [hfind2] at h
        simp at h
      | some p =>
        rw [hfind2] at h
        simp only [Option.map_some', Option.some.injEq] at h
        subst h
        exact kb_answers_ne_empty p (List.mem_of_find?_eq_some hfind2)

/-! ### Branch-shape lemmas for `accessibility_chat`

Each lemma computes the result of one control-flow path of the pipeline from
the hypotheses that select that path. -/

theorem accessibility_chat_of_cached (md5hex : String → String)
    (api_working : Bool) (gen : String → GenOutcome) (now : ℚ)
    (prompt : String) (s : ChatState) (r : String)
    (hne : prompt ≠ "")
    (hhit : get_cached_response md5hex s.response_cache prompt = some r)
    (hr : r ≠ "") :
    accessibility_chat md5hex api_working gen now prompt s =
      { state := { s with chat_history :=
          (s.chat_history ++ [{ role := "user", content := prompt }]) ++
            [{ role := "assistant", content := r, is_cached := true }] },
        genCalled := false, provenance := some .cached, answer := some r,
        errorShown := none, infoShown := some msg_cached_info } := by
  have ht : pyTruthyOptStr (some r) = true := by
    simp [pyTruthyOptStr, hr]
  unfold accessibility_chat
  rw [if_neg hne, hhit, ht]
  rfl

theorem accessibility_chat_of_offline (md5hex : String → String)
    (api_working : Bool) (gen : String → GenOutcome) (now : ℚ)
    (prompt : String) (s : ChatState) (a : String)
    (hne : prompt ≠ "")
    (hmiss : get_cached_response md5hex s.response_cache prompt = none)
    (hfoa : find_offline_answer prompt = some a) :
    accessibility_chat md5hex api_working gen now prompt s =
      { state := { s with chat_history :=
          (s.chat_history ++ [{ role := "user", content := prompt }]) ++
            [{ role := "assistant", content := a, is_offline := true }] },
        genCalled := false, provenance := some .offline, answer := some a,
        errorShown := none, infoShown := none } := by
  have ht : pyTruthyOptStr (some a) = true := by
    simp [pyTruthyOptStr, find_offline_answer_ne_empty prompt a hfoa]
  unfold accessibility_chat
  rw [if_neg hne, hmiss, hfoa, ht]
  rfl

theorem accessibility_chat_of_live (md5hex : String → String)
    (gen : String → GenOutcome) (now : ℚ)
    (prompt : String) (s : ChatState) (t : String)
    (hne : prompt ≠ "")
    (hmiss : get_cached_response md5hex s.response_cache prompt = none)
    (hfoa : find_offline_answer prompt = none)
    (hgen : gen (accessibility_prompt prompt) = .success t) :
    accessibility_chat md5hex true gen now prompt s =
      { state :=
          { chat_history :=
              (s.chat_history ++ [{ role := "user", content := prompt }]) ++
                [{ role := "assistant", content := t }],
            response_cache := cache_response md5hex prompt t s.response_cache,
            last_api_call := (check_rate_limit now s.last_api_call).2 },
        genCalled := true, provenance := some .live, answer := some t,
        errorShown := none, infoShown := none } := by
  unfold accessibility_chat
  rw [if_neg hne, hmiss, hfoa, hgen]
  rfl

theorem accessibility_chat_of_quota (md5hex : String → String)
    (gen : String → GenOutcome) (now : ℚ)
    (prompt : String) (s : ChatState) (e : String)
    (hne : prompt ≠ "")
    (hmiss : get_cached_response md5hex s.response_cache prompt = none)
    (hfoa : find_offline_answer prompt = none)
    (hgen : gen (accessibility_prompt prompt) = .failure e)
    (hq : (strContains e "429" || strContains (pyLower e) "quota") = true) :
    accessibility_chat md5hex true gen now prompt s =
      { state :=
          { chat_history :=
              (s.chat_history ++ [{ role := "user", content := prompt }]) ++
                [{ role := "assistant", content := general_info,
                   is_offline := true }],
            response_cache := s.response_cache,
            last_api_call := (check_rate_limit now s.last_api_call).2 },
        genCalled := true, provenance := some .fallback,
        answer := some general_info, errorShown := some msg_quota_err,
        infoShown := none } := by
  unfold accessibility_chat
  rw [if_neg hne, hmiss, hfoa, hgen]
  simp only [hq]
  rfl

theorem accessibility_chat_of_error (md5hex : String → String)
    (gen : String → GenOutcome) (now : ℚ)
    (prompt : String) (s : ChatState) (e : String)
    (hne : prompt ≠ "")
    (hmiss : get_cached_response md5hex s.response_cache prompt = none)
    (hfoa : find_offline_answer prompt = none)
    (hgen : gen (accessibility_prompt prompt) = .failure e)
    (hq : (strContains e "429" || strContains (pyLower e) "quota") = false) :
    accessibility_chat md5hex true gen now prompt s =
      { state :=
          { chat_history :=
              s.chat_history ++ [{ role := "user", content := prompt }],
            response_cache := s.response_cache,
            last_api_call := (check_rate_limit now s.last_api_call).2 },
        genCalled := true, provenance := none, answer := none,
        errorShown := some ("Error: " ++ e), infoShown := none } := by
  unfold accessibility_chat
  rw [if_neg hne, hmiss, hfoa, hgen]
  simp only [hq]
  rfl

theorem accessibility_chat_of_noapi (md5hex : String → String)
    (gen : String → GenOutcome) (now : ℚ)
    (prompt : String) (s : ChatState)
    (hne : prompt ≠ "")
    (hmiss : get_cached_response md5hex s.response_cache prompt = none)
    (hfoa : find_offline_answer prompt = none) :
    accessibility_chat md5hex false gen now prompt s =
      { state := { s with chat_history :=
          s.chat_history ++ [{ role := "user", content := prompt }] },
        genCalled := false, provenance := none, answer := none,
        errorShown := none, infoShown := some msg_noapi_info } := by
  unfold accessibility_chat
  rw [if_neg hne, hmiss, hfoa]
  rfl

/-- `List.find?` only depends on the values of the predicate on the list. -/
theorem find?_congr_of_mem {α : Type} {p q : α → Bool} :
    ∀ l : List α, (∀ x ∈ l, p x = q x) → l.find? p = l.find? q := by
  intro l
  induction l with
  | nil => intro _; rfl
  | cons a t ih =>
    intro h
    have ha := h a (by simp)
    cases hqa : q a with
    | true =>
      rw [List.find?_cons_of_pos t (by rw [ha, hqa]),
        List.find?_cons_of_pos t hqa]
    | false =>
      rw [List.find?_cons_of_neg t (by rw [ha, hqa]; simp),
        List.find?_cons_of_neg t (by rw [hqa]; simp)]
      exact ih (fun x hx => h x (by simp [hx]))

/-- Claim C2: after every put operation the cache holds at most
`MAX_CACHE_SIZE` entries, and putting the (`MAX_CACHE_SIZE`+1)-th distinct
fingerprint into a full cache evicts exactly the single entry with the
earliest insertion order (strict FIFO), leaving all other entries present. -/
theorem C2_cache_bound_fifo (md5hex : String → String)
    (prompt response : String) (c : List (String × String)) :
    (c.length ≤ MAX_CACHE_SIZE →
      (cache_response md5hex prompt response c).length ≤ MAX_CACHE_SIZE) ∧
    (c.length = MAX_CACHE_SIZE →
      dictGet c (get_cache_key md5hex prompt) = none →
      cache_response md5hex prompt response c =
        c.drop 1 ++ [(get_cache_key md5hex prompt, response)]) := by
  constructor
  · intro hle
    simp only [cache_response]
    split
    · have h1 := dictSet_length_le (get_cache_key md5hex prompt) response (c.drop 1)
      have h2 : (c.drop 1).length = c.length - 1 := by simp
      simp only [MAX_CACHE_SIZE] at *
      omega
    · have h1 := dictSet_length_le (get_cache_key md5hex prompt) response c
      simp only [MAX_CACHE_SIZE] at *
      omega
  · intro hlen hnone
    simp only [cache_response]
    rw [if_pos (le_of_eq hlen.symm)]
    exact dictSet_of_get_none _ _ _ (dictGet_drop_none _ _ hnone)

set_option maxRecDepth 100000 in
/-- Witness for C2: inserting a fresh fingerprint `"a"` into a full
100-entry cache stays within the bound and drops exactly the oldest entry. -/
theorem C2_cache_bound_fifo_witness :
    (cache_response (fun s => s) "a" "v" witnessCache).length ≤ MAX_CACHE_SIZE ∧
    cache_response (fun s => s) "a" "v" witnessCache =
      witnessCache.drop 1 ++ [("a", "v")] :=
  ⟨(C2_cache_bound_fifo (fun s => s) "a" "v" witnessCache).1 (by decide),
   (C2_cache_bound_fifo (fun s => s) "a" "v" witnessCache).2 (by decide) (by decide)⟩

/-- Claim C9: a put whose fingerprint is already present in the tail of a
full cache still evicts the oldest entry before overwriting the existing
entry in place, so the cache drops below capacity. -/
theorem C9_overwrite_full_cache_evicts (md5hex : String → String)
    (prompt response : String) (c : List (String × String))
    (hfull : c.length = MAX_CACHE_SIZE)
    (hmem : (dictGet (c.drop 1) (get_cache_key md5hex prompt)).isSome) :
    cache_response md5hex prompt response c =
      dictSet (c.drop 1) (get_cache_key md5hex prompt) response ∧
    (cache_response md5hex prompt response c).length = MAX_CACHE_SIZE - 1 ∧
    (cache_response md5hex prompt response c).length < MAX_CACHE_SIZE := by
  have h1 : cache_response md5hex prompt response c =
      dictSet (c.drop 1) (get_cache_key md5hex prompt) response := by
    simp only [cache_response]
    rw [if_pos (le_of_eq hfull.symm)]
  have h2 : (cache_response md5hex prompt response c).length =
      MAX_CACHE_SIZE - 1 := by
    rw [h1, dictSet_length_of_get_isSome _ _ _ hmem]
    simp [hfull]
  refine ⟨h1, h2, ?_⟩
  rw [h2]
  decide

set_option maxRecDepth 100000 in
/-- Witness for C9: overwriting fingerprint `"k5"` (present, not oldest) in
the full 100-entry cache leaves 99 entries. -/
theorem C9_overwrite_full_cache_evicts_witness :
    cache_response (fun s => s) "k5" "w" witnessCache =
      dictSet (witnessCache.drop 1) "k5" "w" ∧
    (cache_response (fun s => s) "k5" "w" witnessCache).length =
      MAX_CACHE_SIZE - 1 ∧
    (cache_response (fun s => s) "k5" "w" witnessCache).length <
      MAX_CACHE_SIZE :=
  C9_overwrite_full_cache_evicts (fun s => s) "k5" "w" witnessCache
    (by decide) (by decide)

/-- Claim C8: with completion instants as recorded by `check_rate_limit`
(`RATE_LIMIT_DELAY`-throttled sleep modelled exactly), a second call entered
at `now₂` after a call that completed at `t₁` completes no earlier than
`t₁ + RATE_LIMIT_DELAY`; when entered early it sleeps exactly the remaining
difference; and the first call of a session (`last_api_call = 0`, wall clock
at least `RATE_LIMIT_DELAY` past the epoch) does not sleep at all. -/
theorem C8_rate_limiter_spacing (t₁ now₂ now₀ : ℚ)
    (hseq : t₁ ≤ now₂) (hclock : RATE_LIMIT_DELAY ≤ now₀) :
    RATE_LIMIT_DELAY ≤ (check_rate_limit now₂ t₁).2 - t₁ ∧
    (now₂ - t₁ < RATE_LIMIT_DELAY →
      (check_rate_limit now₂ t₁).1 = RATE_LIMIT_DELAY - (now₂ - t₁)) ∧
    (check_rate_limit now₀ 0).1 = 0 := by
  refine ⟨?_, ?_, ?_⟩
  · show RATE_LIMIT_DELAY ≤
      (now₂ + if now₂ - t₁ < RATE_LIMIT_DELAY
        then RATE_LIMIT_DELAY - (now₂ - t₁) else 0) - t₁
    split
    · linarith
    · rename_i h
      push_neg at h
      linarith
  · intro h
    show (if now₂ - t₁ < RATE_LIMIT_DELAY
        then RATE_LIMIT_DELAY - (now₂ - t₁) else 0) =
      RATE_LIMIT_DELAY - (now₂ - t₁)
    rw [if_pos h]
  · have hng : ¬(now₀ - 0 < RATE_LIMIT_DELAY) := by
      push_neg
      linarith
    show (if now₀ - 0 < RATE_LIMIT_DELAY
        then RATE_LIMIT_DELAY - (now₀ - 0) else 0) = 0
    rw [if_neg hng]

/-- Witness for C8 at `t₁ = 10`, `now₂ = 11`, `now₀ = 100`. -/
theorem C8_rate_limiter_spacing_witness :
    RATE_LIMIT_DELAY ≤ (check_rate_limit 11 10).2 - 10 ∧
    (check_rate_limit 11 10).1 = RATE_LIMIT_DELAY - (11 - 10) ∧
    (check_rate_limit 100 0).1 = 0 :=
  ⟨(C8_rate_limiter_spacing 10 11 100 (by norm_num)
      (by norm_num [RATE_LIMIT_DELAY])).1,
   (C8_rate_limiter_spacing 10 11 100 (by norm_num)
      (by norm_num [RATE_LIMIT_DELAY])).2.1
      (by norm_num [RATE_LIMIT_DELAY]),
   (C8_rate_limiter_spacing 10 11 100 (by norm_num)
      (by norm_num [RATE_LIMIT_DELAY])).2.2⟩

set_option maxRecDepth 100000 in
/-- Claim C1: for every prompt whose lowercased text contains a
Knowledge-Base topic string or a keyword from the keyword index, resolving
the prompt (with no cache entry for that prompt) answers from the knowledge
base with provenance `offline`, and the generation client is never invoked
for that request. -/
theorem C1_kb_match_offline (md5hex : String → String) (api_working : Bool)
    (gen : String → GenOutcome) (now : ℚ) (prompt : String) (s : ChatState)
    (hmatch : (∃ t ∈ kb_topics, strContains (pyLower prompt) t = true) ∨
              (∃ k ∈ kb_keywords, strContains (pyLower prompt) k = true))
    (hmiss : get_cached_response md5hex s.response_cache prompt = none) :
    (accessibility_chat md5hex api_working gen now prompt s).provenance =
        some Provenance.offline ∧
    (accessibility_chat md5hex api_working gen now prompt s).genCalled =
        false ∧
    (accessibility_chat md5hex api_working gen now prompt s).answer =
        find_offline_answer prompt := by
  have hne : prompt ≠ "" := by
    rintro rfl
    have hemp : ∀ u : String, strContains (pyLower "") u = true → u = "" := by
      intro u hu
      have h1 : u.data <:+: ([] : List Char) := of_decide_eq_true hu
      have h2 : u.data = [] := List.eq_nil_of_infix_nil h1
      exact String.ext (by rw [h2])
    rcases hmatch with ⟨t, ht, hc⟩ | ⟨k, hk, hc⟩
    · rw [hemp t hc] at ht
      revert ht
      decide
    · rw [hemp k hc] at hk
      revert hk
      decide
  have hsome : (find_offline_answer prompt).isSome = true := by
    rw [find_offline_answer_eq]
    cases hfind : ACCESSIBILITY_KNOWLEDGE.find?
        (fun p => strContains (pyLower prompt) p.1) with
    | some p => simp
    | none =>
      have hkw : ∃ k ∈ kb_keywords, strContains (pyLower prompt) k = true := by
        rcases hmatch with ⟨t, ht, hc⟩ | h
        · exfalso
          rw [List.find?_eq_none] at hfind
          obtain ⟨p, hp, rfl⟩ := List.mem_map.mp ht
          exact hfind p hp hc
        · exact h
      obtain ⟨k, hk, hc⟩ := hkw
      obtain ⟨kv, hkv, rfl⟩ := List.mem_map.mp hk
      have hpred : (keywords_map.find? (fun kv =>
          strContains (pyLower prompt) kv.1 &&
            (kbLookupTopic kv.2).isSome)).isSome := by
        apply List.find?_isSome.mpr
        refine ⟨kv, hkv, ?_⟩
        rw [Bool.and_eq_true]
        exact ⟨hc, keywords_map_topics_exist kv hkv⟩
      obtain ⟨kv', hkv'⟩ := Option.isSome_iff_exists.mp hpred
      have hp2 := List.find?_some hkv'
      rw [Bool.and_eq_true] at hp2
      obtain ⟨e, he⟩ := Option.isSome_iff_exists.mp hp2.2
      simp [hkv', he]
  obtain ⟨a, ha⟩ := Option.isSome_iff_exists.mp hsome
  have h1 := accessibility_chat_of_offline md5hex api_working gen now prompt
    s a hne hmiss ha
  refine ⟨by rw [h1], by rw [h1], ?_⟩
  rw [h1, ha]

set_option maxRecDepth 100000 in
/-- Witness for C1: the prompt `"What ratio do I need?"` (keyword `"ratio"`)
on an empty cache. -/
theorem C1_kb_match_offline_witness :
    (accessibility_chat (fun s => s) true (fun _ => .success "x") 0
        "What ratio do I need?" initialState).provenance =
      some Provenance.offline ∧
    (accessibility_chat (fun s => s) true (fun _ => .success "x") 0
        "What ratio do I need?" initialState).genCalled = false ∧
    (accessibility_chat (fun s => s) true (fun _ => .success "x") 0
        "What ratio do I need?" initialState).answer =
      find_offline_answer "What ratio do I need?" :=
  C1_kb_match_offline (fun s => s) true (fun _ => .success "x") 0
    "What ratio do I need?" initialState (by decide) rfl

set_option maxRecDepth 100000 in
/-- Counterexample to claim C3 as stated: when the live call succeeds with
the *empty* answer text, the empty string is cached, but the truthiness
guard `if cached_response:` (app.py:456) is falsy on it, so the immediately
following resolve of the same prompt is not a cache hit — it invokes the
generation client again with provenance `live`, not `cached`. -/
theorem C3_counterexample_empty_live_text :
    (accessibility_chat (fun s => s) true (fun _ => .success "") 0
        "tell me about video captions" initialState).provenance =
      some Provenance.live ∧
    (accessibility_chat (fun s => s) true (fun _ => .success "") 0
        "tell me about video captions"
        (accessibility_chat (fun s => s) true (fun _ => .success "") 0
          "tell me about video captions" initialState).state).genCalled =
      true ∧
    (accessibility_chat (fun s => s) true (fun _ => .success "") 0
        "tell me about video captions"
        (accessibility_chat (fun s => s) true (fun _ => .success "") 0
          "tell me about video captions" initialState).state).provenance ≠
      some Provenance.cached := by
  refine ⟨by decide, by decide, by decide⟩

/-- Claim C3 (amended): for a prompt with no knowledge-base match, after a
first `resolve` that completes a successful live generation call with
*non-empty* answer text, an immediately following `resolve` of the same
prompt answers from the cache with the identical answer text and makes no
generation call.  (With empty answer text the cached value is falsy under
the `if cached_response:` truthiness guard and the client is invoked
again.) -/
theorem C3_live_then_cached (md5hex : String → String) (api₂ : Bool)
    (gen gen₂ : String → GenOutcome) (now now₂ : ℚ) (prompt : String)
    (s : ChatState) (t : String)
    (hne : prompt ≠ "")
    (hmiss : get_cached_response md5hex s.response_cache prompt = none)
    (hfoa : find_offline_answer prompt = none)
    (hgen : gen (accessibility_prompt prompt) = .success t)
    (ht : t ≠ "") :
    (accessibility_chat md5hex true gen now prompt s).provenance =
        some Provenance.live ∧
    (accessibility_chat md5hex true gen now prompt s).answer = some t ∧
    (accessibility_chat md5hex api₂ gen₂ now₂ prompt
        (accessibility_chat md5hex true gen now prompt s).state).provenance =
      some Provenance.cached ∧
    (accessibility_chat md5hex api₂ gen₂ now₂ prompt
        (accessibility_chat md5hex true gen now prompt s).state).answer =
      some t ∧
    (accessibility_chat md5hex api₂ gen₂ now₂ prompt
        (accessibility_chat md5hex true gen now prompt s).state).genCalled =
      false := by
  have h1 := accessibility_chat_of_live md5hex gen now prompt s t hne hmiss
    hfoa hgen
  have hst : (accessibility_chat md5hex true gen now prompt
      s).state.response_cache =
      cache_response md5hex prompt t s.response_cache := by
    rw [h1]
  have hhit : get_cached_response md5hex
      (accessibility_chat md5hex true gen now prompt s).state.response_cache
      prompt = some t := by
    rw [hst]
    unfold get_cached_response cache_response
    exact dictGet_dictSet_self _ _ _
  have h2 := accessibility_chat_of_cached md5hex api₂ gen₂ now₂ prompt
    (accessibility_chat md5hex true gen now prompt s).state t hne hhit ht
  exact ⟨by rw [h1], by rw [h1], by rw [h2], by rw [h2], by rw [h2]⟩

set_option maxRecDepth 100000 in
/-- Witness for C3: the prompt `"tell me about video captions"` (no
knowledge-base match) on an empty cache with a generation client returning
`"resp"`. -/
theorem C3_live_then_cached_witness :
    (accessibility_chat (fun s => s) true (fun _ => .success "resp") 0
        "tell me about video captions" initialState).provenance =
      some Provenance.live ∧
    (accessibility_chat (fun s => s) true (fun _ => .success "resp") 0
        "tell me about video captions" initialState).answer = some "resp" ∧
    (accessibility_chat (fun s => s) true (fun _ => .success "other") 5
        "tell me about video captions"
        (accessibility_chat (fun s => s) true (fun _ => .success "resp") 0
          "tell me about video captions" initialState).state).provenance =
      some Provenance.cached ∧
    (accessibility_chat (fun s => s) true (fun _ => .success "other") 5
        "tell me about video captions"
        (accessibility_chat (fun s => s) true (fun _ => .success "resp") 0
          "tell me about video captions" initialState).state).answer =
      some "resp" ∧
    (accessibility_chat (fun s => s) true (fun _ => .success "other") 5
        "tell me about video captions"
        (accessibility_chat (fun s => s) true (fun _ => .success "resp") 0
          "tell me about video captions" initialState).state).genCalled =
      false :=
  C3_live_then_cached (fun s => s) true (fun _ => .success "resp")
    (fun _ => .success "other") 0 5 "tell me about video captions"
    initialState "resp" (by decide) rfl (by decide) rfl (by decide)

/-- Claim C4: when the generation call fails with a signal classified as
quota exhaustion (message containing `"429"` or, case-insensitively,
`"quota"`), the pipeline answers with the fixed non-empty generic resource
content with provenance `fallback`, and the response cache is left
completely unchanged. -/
theorem C4_quota_fallback_no_cache (md5hex : String → String)
    (gen : String → GenOutcome) (now : ℚ) (prompt : String) (s : ChatState)
    (e : String)
    (hne : prompt ≠ "")
    (hmiss : get_cached_response md5hex s.response_cache prompt = none)
    (hfoa : find_offline_answer prompt = none)
    (hgen : gen (accessibility_prompt prompt) = .failure e)
    (hq : strContains e "429" = true ∨ strContains (pyLower e) "quota" = true) :
    (accessibility_chat md5hex true gen now prompt s).provenance =
        some Provenance.fallback ∧
    (accessibility_chat md5hex true gen now prompt s).answer =
        some general_info ∧
    general_info ≠ "" ∧
    (accessibility_chat md5hex true gen now prompt s).state.response_cache =
        s.response_cache := by
  have hq' : (strContains e "429" || strContains (pyLower e) "quota") = true := by
    rcases hq with h | h <;> simp [h]
  have h1 := accessibility_chat_of_quota md5hex gen now prompt s e hne hmiss
    hfoa hgen hq'
  exact ⟨by rw [h1], by rw [h1], by decide, by rw [h1]⟩

set_option maxRecDepth 100000 in
/-- Witness for C4: generation fails with message `"429"` on the no-KB-match
prompt `"tell me about video captions"` and an empty cache. -/
theorem C4_quota_fallback_no_cache_witness :
    (accessibility_chat (fun s => s) true (fun _ => .failure "429") 0
        "tell me about video captions" initialState).provenance =
      some Provenance.fallback ∧
    (accessibility_chat (fun s => s) true (fun _ => .failure "429") 0
        "tell me about video captions" initialState).answer =
      some general_info ∧
    general_info ≠ "" ∧
    (accessibility_chat (fun s => s) true (fun _ => .failure "429") 0
        "tell me about video captions" initialState).state.response_cache =
      initialState.response_cache :=
  C4_quota_fallback_no_cache (fun s => s) (fun _ => .failure "429") 0
    "tell me about video captions" initialState "429" (by decide) rfl
    (by decide) rfl (Or.inl (by decide))

set_option maxRecDepth 100000 in
/-- Counterexample to claim C5 as stated: the whitespace-only prompt `" "`
is not rejected at the boundary — the truthiness guard
`if prompt := st.chat_input(...)` only filters the empty string — so with a
configured client and an empty cache the generation client is invoked. -/
theorem C5_counterexample_whitespace_reaches_gen :
    (accessibility_chat (fun s => s) true (fun _ => .success "x") 0 " "
        initialState).genCalled = true := by
  decide

/-- Claim C5 (amended): for every *empty* prompt the chat turn is a no-op
— the session state is unchanged and the generation client is never
invoked; whitespace-only non-empty prompts are not rejected by the
pipeline. -/
theorem C5_empty_prompt_no_gen (md5hex : String → String)
    (api_working : Bool) (gen : String → GenOutcome) (now : ℚ)
    (s : ChatState) :
    (accessibility_chat md5hex api_working gen now "" s).genCalled = false ∧
    (accessibility_chat md5hex api_working gen now "" s).state = s ∧
    (accessibility_chat md5hex api_working gen now "" s).answer = none := by
  refine ⟨rfl, rfl, rfl⟩

set_option maxRecDepth 100000 in
/-- Counterexample to claim C6 as stated: with an unconfigured generation
client, an empty cache and the no-KB-match prompt
`"tell me about video captions"`, the pipeline does *not* produce the
generic resource pointers with provenance `fallback`; it only shows an
informational banner. -/
theorem C6_counterexample_no_fallback :
    ¬((accessibility_chat (fun s => s) false (fun _ => .success "x") 0
        "tell me about video captions" initialState).provenance =
          some Provenance.fallback ∧
      (accessibility_chat (fun s => s) false (fun _ => .success "x") 0
        "tell me about video captions" initialState).answer =
          some general_info) := by
  decide

set_option maxRecDepth 100000 in
/-- Claim C6 (amended): with an empty cache and an unconfigured generation
client, resolving `"tell me about video captions"` (no knowledge-base
match) makes no generation call, produces no answer and no fallback
content, appends only the user message, shows the `API not available`
informational banner, and (being a total function) propagates no
exception. -/
theorem C6_unconfigured_info_banner (md5hex : String → String)
    (gen : String → GenOutcome) (now : ℚ) :
    accessibility_chat md5hex false gen now "tell me about video captions"
        initialState =
      { state :=
          { chat_history :=
              [{ role := "user", content := "tell me about video captions" }],
            response_cache := [], last_api_call := 0 },
        genCalled := false, provenance := none, answer := none,
        errorShown := none, infoShown := some msg_noapi_info } := by
  have h := accessibility_chat_of_noapi md5hex gen now
    "tell me about video captions" initialState (by decide) rfl (by decide)
  rw [h]
  rfl

/-- Plain unfolding of `kb_lookup_spec`. -/
theorem kb_lookup_spec_eq (query : String) :
    kb_lookup_spec query =
      match ACCESSIBILITY_KNOWLEDGE.find?
          (fun p => strContains (pyLower query) p.1) with
      | some p => some p.2.answer
      | none =>
        match keywords_map.find? (fun kv =>
            strContains (pyLower query) kv.1) with
        | some kv => (kbLookupTopic kv.2).map (fun e => e.answer)
        | none => none := rfl

set_option maxRecDepth 100000 in
/-- Claim C7: the knowledge-base lookup of the code equals the reference
algorithm of the spec on every query (it is a total pure function, so it
has no side effects and never raises), and in particular lookup of
`"What ratio do I need?"` returns the canonical color-contrast answer. -/
theorem C7_lookup_matches_reference :
    (∀ q : String, find_offline_answer q = kb_lookup_spec q) ∧
    find_offline_answer "What ratio do I need?" =
      some answer_color_contrast := by
  constructor
  · intro q
    rw [find_offline_answer_eq, kb_lookup_spec_eq]
    have hc : keywords_map.find? (fun kv =>
        strContains (pyLower q) kv.1 && (kbLookupTopic kv.2).isSome) =
        keywords_map.find? (fun kv => strContains (pyLower q) kv.1) :=
      find?_congr_of_mem keywords_map (fun kv hkv => by
        rw [keywords_map_topics_exist kv hkv, Bool.and_true])
    rw [hc]
  · decide

/-- Claim C10: when the live generation call fails with an error not
classified as quota exhaustion, the pipeline surfaces the error message,
appends no assistant entry (the conversation history gains only the user's
entry for that turn), and writes nothing to the response cache. -/
theorem C10_service_error_frame (md5hex : String → String)
    (gen : String → GenOutcome) (now : ℚ) (prompt : String) (s : ChatState)
    (e : String)
    (hne : prompt ≠ "")
    (hmiss : get_cached_response md5hex s.response_cache prompt = none)
    (hfoa : find_offline_answer prompt = none)
    (hgen : gen (accessibility_prompt prompt) = .failure e)
    (h429 : strContains e "429" = false)
    (hquota : strContains (pyLower e) "quota" = false) :
    (accessibility_chat md5hex true gen now prompt s).state.chat_history =
        s.chat_history ++ [{ role := "user", content := prompt }] ∧
    (accessibility_chat md5hex true gen now prompt s).state.response_cache =
        s.response_cache ∧
    (accessibility_chat md5hex true gen now prompt s).errorShown =
        some ("Error: " ++ e) ∧
    (accessibility_chat md5hex true gen now prompt s).answer = none := by
  have hq : (strContains e "429" || strContains (pyLower e) "quota") =
      false := by
    rw [h429, hquota]
    rfl
  have h1 := accessibility_chat_of_error md5hex gen now prompt s e hne hmiss
    hfoa hgen hq
  exact ⟨by rw [h1], by rw [h1], by rw [h1], by rw [h1]⟩

set_option maxRecDepth 100000 in
/-- Witness for C10: generation fails with the non-quota message `"boom"`
on the no-KB-match prompt `"tell me about video captions"` and an empty
cache. -/
theorem C10_service_error_frame_witness :
    (accessibility_chat (fun s => s) true (fun _ => .failure "boom") 0
        "tell me about video captions" initialState).state.chat_history =
      initialState.chat_history ++
        [{ role := "user", content := "tell me about video captions" }] ∧
    (accessibility_chat (fun s => s) true (fun _ => .failure "boom") 0
        "tell me about video captions" initialState).state.response_cache =
      initialState.response_cache ∧
    (accessibility_chat (fun s => s) true (fun _ => .failure "boom") 0
        "tell me about video captions" initialState).errorShown =
      some ("Error: " ++ "boom") ∧
    (accessibility_chat (fun s => s) true (fun _ => .failure "boom") 0
        "tell me about video captions" initialState).answer = none :=
  C10_service_error_frame (fun s => s) (fun _ => .failure "boom") 0
    "tell me about video captions" initialState "boom" (by decide) rfl
    (by decide) rfl (by decide) (by decide)
